import Mathlib

/-!
Verification of the cutlass client-side node model (Base, SixteenSDnaPrep,
WgsAssembledSeqSet, HostEpigeneticsRawSeqSet) against its specification.

Python objects are embedded shallowly: dynamically typed Python values are
the inductive `PyVal`; a Python dict is an insertion-ordered association
list; raised exceptions become `Except PyErr`; mutation of `self` becomes
explicit state passing (a method returns the post-call object state); the
remote OSDF store is a record of functions, and each store call made by a
method is recorded in an explicit trace.
-/

set_option maxRecDepth 4000

namespace Cutlass

/-- A dynamically typed Python value: `None`, strings, integers, booleans,
lists and (insertion-ordered) dictionaries. -/
inductive PyVal : Type where
  | pynone : PyVal
  | str : String → PyVal
  | int : Int → PyVal
  | bool : Bool → PyVal
  | list : List PyVal → PyVal
  | dict : List (PyVal × PyVal) → PyVal

/-- A raised Python exception, by class and payload. -/
inductive PyErr : Type where
  | typeError (msg : String) : PyErr
  | valueError (msg : String) : PyErr
  | keyError (key : PyVal) : PyErr
  | exception (msg : String) : PyErr

namespace PyVal

mutual

/-- Python `==` on embedded values (structural value equality). -/
def beq : PyVal → PyVal → Bool
  | .pynone, .pynone => true
  | .str a, .str b => a == b
  | .int a, .int b => a == b
  | .bool a, .bool b => a == b
  | .list xs, .list ys => beqList xs ys
  | .dict xs, .dict ys => beqDict xs ys
  | _, _ => false

/-- Python `==` on lists of embedded values, elementwise. -/
def beqList : List PyVal → List PyVal → Bool
  | [], [] => true
  | x :: xs, y :: ys => beq x y && beqList xs ys
  | _, _ => false

/-- Python `==` on dict items, pairwise in order. -/
def beqDict : List (PyVal × PyVal) → List (PyVal × PyVal) → Bool
  | [], [] => true
  | (k₁, v₁) :: xs, (k₂, v₂) :: ys => beq k₁ k₂ && beq v₁ v₂ && beqDict xs ys
  | _, _ => false

end

instance : BEq PyVal := ⟨beq⟩

/-- Python `d[k]` on a dict represented as an ordered association list:
the value at the first matching key, or a raised `KeyError` carrying the
lookup key. -/
def getItem (entries : List (PyVal × PyVal)) (k : PyVal) : Except PyErr PyVal :=
  match entries with
  | [] => .error (.keyError k)
  | (k₀, v₀) :: rest => if beq k₀ k then .ok v₀ else getItem rest k

/-- Python `k in d` on a dict represented as an ordered association list. -/
def hasKey (entries : List (PyVal × PyVal)) (k : PyVal) : Bool :=
  entries.any (fun kv => beq kv.1 k)

/-- Python string-key access `d['k']`. -/
def getStr (entries : List (PyVal × PyVal)) (k : String) : Except PyErr PyVal :=
  getItem entries (.str k)

/-- Python `'k' in d`. -/
def hasStr (entries : List (PyVal × PyVal)) (k : String) : Bool :=
  hasKey entries (.str k)

/-- Is this value a Python `str`? -/
def isStr : PyVal → Bool
  | .str _ => true
  | _ => false

/-- Is this value a Python `list`? -/
def isList : PyVal → Bool
  | .list _ => true
  | _ => false

end PyVal

/-! ## Setter guards (cutlass/Util.py decorators)

Modelled from the spec: `cutlass/Util.py` is not among the provided
sources.  Per spec §7, a setter given a value of the wrong type raises
immediately; per §4.2 the mapping check raises `TypeError`.  Each
`enforce_*` guard admits exactly the Python values of the decorated
parameter's type and raises `TypeError` otherwise. -/

/-- Modelled from the spec: `enforce_dict` — `TypeError` unless the
argument is a mapping; returns the items. -/
def enforce_dict (v : PyVal) : Except PyErr (List (PyVal × PyVal)) :=
  match v with
  | .dict entries => .ok entries
  | _ => .error (.typeError "argument must be a dict")

/-- Modelled from the spec: `enforce_string` — `TypeError` unless the
argument is a `str`; returns the unwrapped string. -/
def enforce_string (v : PyVal) : Except PyErr String :=
  match v with
  | .str s => .ok s
  | _ => .error (.typeError "argument must be a string")

/-- Modelled from the spec: `enforce_int` — `TypeError` unless the
argument is an `int`; returns the unwrapped integer. -/
def enforce_int (v : PyVal) : Except PyErr Int :=
  match v with
  | .int i => .ok i
  | _ => .error (.typeError "argument must be an integer")

/-- Modelled from the spec: `enforce_list` — `TypeError` unless the
argument is a `list`; returns the elements. -/
def enforce_list (v : PyVal) : Except PyErr (List PyVal) :=
  match v with
  | .list xs => .ok xs
  | _ => .error (.typeError "argument must be a list")

/-- The checks of the `links` setter (`Base.links`): `enforce_dict`, then
iterate over the items and raise `ValueError` unless every key is a `str`
and every value is a `list`; on success the mapping is what gets stored,
verbatim. -/
def links_check (v : PyVal) : Except PyErr (List (PyVal × PyVal)) := do
  let entries ← enforce_dict v
  if entries.all (fun kv => kv.1.isStr && kv.2.isList) then
    .ok entries
  else
    .error (.valueError "Links must be a dict of strings to lists.")

/-! ## The Base node state (cutlass/Base.py)

`Base.__init__` sets `_id = None`, `_version = None`, `_links = {}` and
`_tags = []`.  The identifier is an arbitrary string once assigned, the
version an arbitrary integer once assigned, the links a Python dict
(embedded as an ordered association list over arbitrary `PyVal` keys and
values, since the setter must be able to reject ill-typed input), and the
tags a Python list. -/

structure BaseNode : Type where
  _id : Option String
  _version : Option Int
  _links : List (PyVal × PyVal)
  _tags : List PyVal

namespace BaseNode

/-- `Base.__init__`: `_id = None`, `_version = None`, `_links = {}`,
`_tags = []`. -/
def init : BaseNode :=
  { _id := none, _version := none, _links := [], _tags := [] }

/-- The full `links` setter on `Base`: run `links_check` and store the
mapping on success. -/
def links_setter (v : PyVal) (n : BaseNode) : Except PyErr BaseNode := do
  let entries ← links_check v
  .ok { n with _links := entries }

/-- `Base.add_tag`: appends the tag when absent, raises `ValueError` when
already present.  The returned pair is the raised exception (if any)
together with the object state after the call. -/
def add_tag (n : BaseNode) (tag : PyVal) : Option PyErr × BaseNode :=
  if n._tags.contains tag then
    (some (.valueError "Tag already present for this subject"), n)
  else
    (none, { n with _tags := n._tags ++ [tag] })

/-- Python truthiness of the `_id` attribute: `None` and the empty string
are falsy, every other string is truthy. -/
def idTruthy (n : BaseNode) : Bool :=
  match n._id with
  | none => false
  | some s => s ≠ ""

/-- `Base.__eq__`: `self._id == other._id` when both `_id` attributes are
truthy, `False` otherwise. -/
def eq (a b : BaseNode) : Bool :=
  if a.idTruthy && b.idTruthy then a._id = b._id else false

/-- `Base.__hash__`: raises `TypeError` when `_id` is falsy (`None` or the
empty string), otherwise delegates to the builtin string hash of `_id`
(the hashed string is returned as the success value). -/
def hashId (n : BaseNode) : Except PyErr String :=
  match n._id with
  | none => .error (.typeError "Unhashable; must have ID")
  | some s =>
      if s = "" then .error (.typeError "Unhashable; must have ID")
      else .ok s

end BaseNode

/-! ## The remote OSDF store collaborator

The `osdf` package is an external dependency (spec §6 gives its contract).
It is embedded as a record of operations; fallible operations return
`Except String` (a store-specific error).  Every call a method makes to
the store is also recorded in an explicit `StoreCall` trace so that the
theorems can speak about which store operations a method performed. -/

/-- The result shape of `oql_query` per the spec contract:
a `result_count` and a list of raw documents under `results`. -/
structure OqlResult : Type where
  result_count : Int
  results : List PyVal

/-- The remote store's operations (spec §6): `insert_node` returns the new
identifier, `edit_node` updates in place, `get_node` fetches a raw
document, `delete_node` removes a node, `validate_node` returns a
validity flag and an error message, `oql_query` runs a query. -/
structure OSDF : Type where
  validate_node : PyVal → Bool × String
  insert_node : PyVal → Except String String
  edit_node : PyVal → Except String Unit
  get_node : String → Except String PyVal
  delete_node : String → Except String Unit
  oql_query : String → String → OqlResult

/-- One call made to the remote store, for the call traces. -/
inductive StoreCall : Type where
  | validateNode (doc : PyVal) : StoreCall
  | insertNode (doc : PyVal) : StoreCall
  | editNode (doc : PyVal) : StoreCall
  | getNode (nodeId : String) : StoreCall
  | deleteNode (nodeId : String) : StoreCall
  | oqlQuery (ns query : String) : StoreCall

/-- `Base.delete`: raises when `_id` is `None` (before any store contact);
otherwise calls the store's `delete_node` and returns `True` on success
and `False` on a store error.  The object state is returned alongside the
success flag: the method body never assigns to any attribute, so the
returned state is the argument itself. -/
def BaseNode.delete (osdf : OSDF) (n : BaseNode) :
    Except PyErr (BaseNode × Bool) × List StoreCall :=
  match n._id with
  | none => (.error (.exception "Node does not have an ID."), [])
  | some i =>
      match osdf.delete_node i with
      | .ok _ => (.ok (n, true), [.deleteNode i])
      | .error _ => (.ok (n, false), [.deleteNode i])

/-! ## SixteenSDnaPrep (cutlass/SixteenSDnaPrep.py)

All attributes are dynamically typed Python values; `__init__` sets every
subtype field to `None`, `_links` to `{}` and `_tags` to `[]`. -/

structure SixteenSDnaPrep : Type where
  _id : PyVal
  _version : PyVal
  _links : List (PyVal × PyVal)
  _tags : List PyVal
  _comment : PyVal
  _frag_size : PyVal
  _lib_layout : PyVal
  _lib_selection : PyVal
  _mimarks : PyVal
  _ncbi_taxon_id : PyVal
  _prep_id : PyVal
  _sequencing_center : PyVal
  _sequencing_contact : PyVal
  _srs_id : PyVal
  _storage_duration : PyVal

namespace SixteenSDnaPrep

/-- `SixteenSDnaPrep.__init__`: every field `None`, links `{}`, tags `[]`. -/
def init : SixteenSDnaPrep :=
  { _id := .pynone, _version := .pynone, _links := [], _tags := [],
    _comment := .pynone, _frag_size := .pynone, _lib_layout := .pynone,
    _lib_selection := .pynone, _mimarks := .pynone,
    _ncbi_taxon_id := .pynone, _prep_id := .pynone,
    _sequencing_center := .pynone, _sequencing_contact := .pynone,
    _srs_id := .pynone, _storage_duration := .pynone }

/-- `SixteenSDnaPrep._get_raw_doc`: the canonical document.  The base
dict carries `acl`, `linkage`, `ns`, `node_type` and `meta` (with every
required field present even when `None`, plus the fixed `subtype` and the
tags); `id` and `ver` are added only once assigned, and the optional
`frag_size` and `srs_id` meta entries only when set. -/
def _get_raw_doc (p : SixteenSDnaPrep) : PyVal :=
  let meta : List (PyVal × PyVal) :=
    [ (.str "comment", p._comment),
      (.str "lib_layout", p._lib_layout),
      (.str "lib_selection", p._lib_selection),
      (.str "mimarks", p._mimarks),
      (.str "ncbi_taxon_id", p._ncbi_taxon_id),
      (.str "prep_id", p._prep_id),
      (.str "sequencing_center", p._sequencing_center),
      (.str "sequencing_contact", p._sequencing_contact),
      (.str "storage_duration", p._storage_duration),
      (.str "subtype", .str "16s"),
      (.str "tags", .list p._tags) ]
  let meta := meta ++
    (match p._frag_size with
     | .pynone => []
     | v => [(.str "frag_size", v)]) ++
    (match p._srs_id with
     | .pynone => []
     | v => [(.str "srs_id", v)])
  let top : List (PyVal × PyVal) :=
    [ (.str "acl", .dict [ (.str "read", .list [.str "all"]),
                           (.str "write", .list [.str "ihmp"]) ]),
      (.str "linkage", .dict p._links),
      (.str "ns", .str "ihmp"),
      (.str "node_type", .str "16s_dna_prep"),
      (.str "meta", .dict meta) ]
  let top := top ++
    (match p._id with
     | .pynone => []
     | v => [(.str "id", v)]) ++
    (match p._version with
     | .pynone => []
     | v => [(.str "ver", v)])
  .dict top

/-- `SixteenSDnaPrep.validate`: the remote validator's message (when the
document is invalid) followed by the structural problem for a missing
mandatory `prepared_from` link. -/
def validate (osdf : OSDF) (p : SixteenSDnaPrep) : List String :=
  let res := osdf.validate_node p._get_raw_doc
  (if res.1 then [] else [res.2]) ++
  (if PyVal.hasStr p._links "prepared_from" then []
   else ["Must add a 'prepared_from' link to a sample."])

/-- `SixteenSDnaPrep.is_valid`: the remote validator's flag, forced to
`False` when the mandatory `prepared_from` link is missing. -/
def is_valid (osdf : OSDF) (p : SixteenSDnaPrep) : Bool :=
  let res := osdf.validate_node p._get_raw_doc
  if PyVal.hasStr p._links "prepared_from" then res.1 else false

/-- `SixteenSDnaPrep.save`: gate on `is_valid`; insert when `_id` is
`None` (on success assign the returned identifier and set version 1),
otherwise update via `edit_node` (on success the method body sets no
field at all); store errors are swallowed into a `False` result.  Returns
the post-call state, the success flag and the store-call trace (the
validation gate itself submits the raw document to `validate_node`). -/
def save (osdf : OSDF) (p : SixteenSDnaPrep) :
    SixteenSDnaPrep × Bool × List StoreCall :=
  let vcall := StoreCall.validateNode p._get_raw_doc
  if ¬ p.is_valid osdf then
    (p, false, [vcall])
  else
    match p._id with
    | .pynone =>
        let prep_data := p._get_raw_doc
        (match osdf.insert_node prep_data with
         | .ok node_id =>
             ({ p with _id := .str node_id, _version := .int 1 }, true,
              [vcall, .insertNode prep_data])
         | .error _ =>
             (p, false, [vcall, .insertNode prep_data]))
    | _ =>
        let prep_data := p._get_raw_doc
        (match osdf.edit_node prep_data with
         | .ok _ => (p, true, [vcall, .editNode prep_data])
         | .error _ => (p, false, [vcall, .editNode prep_data]))

/-- The `version` setter (`Base.version`): `enforce_int`, then
`ValueError` unless positive. -/
def set_version (p : SixteenSDnaPrep) (v : PyVal) :
    Except PyErr SixteenSDnaPrep := do
  let i ← enforce_int v
  if i ≤ 0 then .error (.valueError "Invalid version. Must be a postive integer.")
  else .ok { p with _version := v }

/-- The `links` setter (`Base.links`), inherited by the prep class. -/
def set_links (p : SixteenSDnaPrep) (v : PyVal) :
    Except PyErr SixteenSDnaPrep := do
  let entries ← links_check v
  .ok { p with _links := entries }

/-- The `tags` setter (`Base.tags`): `enforce_list`, stored verbatim. -/
def set_tags (p : SixteenSDnaPrep) (v : PyVal) :
    Except PyErr SixteenSDnaPrep := do
  let xs ← enforce_list v
  .ok { p with _tags := xs }

/-- The `comment` setter: `enforce_string`, stored. -/
def set_comment (p : SixteenSDnaPrep) (v : PyVal) :
    Except PyErr SixteenSDnaPrep := do
  let _ ← enforce_string v
  .ok { p with _comment := v }

/-- The `lib_layout` setter: `enforce_string`, stored. -/
def set_lib_layout (p : SixteenSDnaPrep) (v : PyVal) :
    Except PyErr SixteenSDnaPrep := do
  let _ ← enforce_string v
  .ok { p with _lib_layout := v }

/-- The `lib_selection` setter: `enforce_string`, stored. -/
def set_lib_selection (p : SixteenSDnaPrep) (v : PyVal) :
    Except PyErr SixteenSDnaPrep := do
  let _ ← enforce_string v
  .ok { p with _lib_selection := v }

/-- The `mimarks` setter: `enforce_dict`, then validated through
`MIMARKS.check_dict`; raises `MimarksException` when invalid.
`cutlass/mimarks.py` is not among the provided sources, so the check is a
parameter `cm` of the loading operations (the sibling `cutlass/mims.py`
shows the shape of such a check: required keys present, no foreign keys,
values of the right types). -/
def set_mimarks (cm : List (PyVal × PyVal) → Bool) (p : SixteenSDnaPrep)
    (v : PyVal) : Except PyErr SixteenSDnaPrep := do
  let entries ← enforce_dict v
  if cm entries then .ok { p with _mimarks := v }
  else .error (.exception "Invalid MIMARKS data detected.")

/-- The `ncbi_taxon_id` setter: `enforce_string`, stored. -/
def set_ncbi_taxon_id (p : SixteenSDnaPrep) (v : PyVal) :
    Except PyErr SixteenSDnaPrep := do
  let _ ← enforce_string v
  .ok { p with _ncbi_taxon_id := v }

/-- The `prep_id` setter: `enforce_string`, stored. -/
def set_prep_id (p : SixteenSDnaPrep) (v : PyVal) :
    Except PyErr SixteenSDnaPrep := do
  let _ ← enforce_string v
  .ok { p with _prep_id := v }

/-- The `sequencing_center` setter: `enforce_string`, stored. -/
def set_sequencing_center (p : SixteenSDnaPrep) (v : PyVal) :
    Except PyErr SixteenSDnaPrep := do
  let _ ← enforce_string v
  .ok { p with _sequencing_center := v }

/-- The `sequencing_contact` setter: `enforce_string`, stored. -/
def set_sequencing_contact (p : SixteenSDnaPrep) (v : PyVal) :
    Except PyErr SixteenSDnaPrep := do
  let _ ← enforce_string v
  .ok { p with _sequencing_contact := v }

/-- The `storage_duration` setter: `enforce_int`, `ValueError` when
negative, stored. -/
def set_storage_duration (p : SixteenSDnaPrep) (v : PyVal) :
    Except PyErr SixteenSDnaPrep := do
  let i ← enforce_int v
  if i < 0 then .error (.valueError "Invalid storage_duration. Must be non-negative.")
  else .ok { p with _storage_duration := v }

/-- The `frag_size` setter: `enforce_int`, `ValueError` when negative,
stored. -/
def set_frag_size (p : SixteenSDnaPrep) (v : PyVal) :
    Except PyErr SixteenSDnaPrep := do
  let i ← enforce_int v
  if i < 0 then .error (.valueError "Invalid frag_size. Must be non-negative.")
  else .ok { p with _frag_size := v }

/-- The `srs_id` setter: `enforce_string`; raises when shorter than 3
characters; stored. -/
def set_srs_id (p : SixteenSDnaPrep) (v : PyVal) :
    Except PyErr SixteenSDnaPrep := do
  let s ← enforce_string v
  if s.length < 3 then
    .error (.exception "SRS ID is too short, must be more than 3 characters.")
  else .ok { p with _srs_id := v }

/-- `prep_data['meta'][key]`: look up `meta` in the raw document's items,
then `key` inside it (a `TypeError` when the `meta` value is not itself a
dict, a `KeyError` when a key is absent). -/
def metaGet (d : List (PyVal × PyVal)) (k : String) : Except PyErr PyVal := do
  let m ← PyVal.getStr d "meta"
  match m with
  | .dict md => PyVal.getStr md k
  | _ => .error (.typeError "meta is not a dict")

/-- `prep_data['meta']` as a dict, for the `in` membership tests on the
optional fields. -/
def metaItems (d : List (PyVal × PyVal)) :
    Except PyErr (List (PyVal × PyVal)) := do
  let m ← PyVal.getStr d "meta"
  match m with
  | .dict md => .ok md
  | _ => .error (.typeError "meta is not a dict")

/-- `SixteenSDnaPrep.load_sixteenSDnaPrep`: builds a template instance
and populates it from the raw document through the public setters
(`_set_id` stores the identifier value unchecked); the optional
`frag_size` and `srs_id` entries are read only when present. -/
def load_sixteenSDnaPrep (cm : List (PyVal × PyVal) → Bool)
    (prep_data : PyVal) : Except PyErr SixteenSDnaPrep := do
  let d ← enforce_dict prep_data
  let idv ← PyVal.getStr d "id"
  let p : SixteenSDnaPrep := { init with _id := idv }
  let p ← p.set_version (← PyVal.getStr d "ver")
  let p ← p.set_links (← PyVal.getStr d "linkage")
  let p ← p.set_comment (← metaGet d "comment")
  let p ← p.set_lib_layout (← metaGet d "lib_layout")
  let p ← p.set_lib_selection (← metaGet d "lib_selection")
  let p ← set_mimarks cm p (← metaGet d "mimarks")
  let p ← p.set_ncbi_taxon_id (← metaGet d "ncbi_taxon_id")
  let p ← p.set_prep_id (← metaGet d "prep_id")
  let p ← p.set_sequencing_center (← metaGet d "sequencing_center")
  let p ← p.set_sequencing_contact (← metaGet d "sequencing_contact")
  let p ← p.set_storage_duration (← metaGet d "storage_duration")
  let p ← p.set_tags (← metaGet d "tags")
  let md ← metaItems d
  let p ← if PyVal.hasStr md "frag_size" then
      p.set_frag_size (← PyVal.getStr md "frag_size")
    else .ok p
  let p ← if PyVal.hasStr md "srs_id" then
      p.set_srs_id (← PyVal.getStr md "srs_id")
    else .ok p
  .ok p

/-- The result-accumulation loop of `SixteenSDnaPrep.search`: walk the
raw documents in order, converting each through
`load_sixteenSDnaPrep` and appending; an exception raised by the
conversion aborts the loop. -/
def loadAll (cm : List (PyVal × PyVal) → Bool) :
    List PyVal → Except PyErr (List SixteenSDnaPrep)
  | [] => .ok []
  | doc :: rest => do
      let obj ← load_sixteenSDnaPrep cm doc
      let objs ← loadAll cm rest
      .ok (obj :: objs)

/-- `SixteenSDnaPrep.search`: unless the caller's query is exactly the
fixed node-type clause, wrap it in parentheses and conjoin that clause;
submit the result through `oql_query` and convert each raw result
document in order.  Returns the result (or the propagated conversion
exception) together with the store-call trace. -/
def search (cm : List (PyVal × PyVal) → Bool) (osdf : OSDF)
    (query : String) : Except PyErr (List SixteenSDnaPrep) × List StoreCall :=
  let q := if query ≠ "\"16s_dna_prep\"[node_type]" then
      "(" ++ query ++ ") && \"16s_dna_prep\"[node_type]"
    else query
  (loadAll cm (osdf.oql_query "ihmp" q).results, [.oqlQuery "ihmp" q])

end SixteenSDnaPrep

/-! ## WgsAssembledSeqSet (cutlass/WgsAssembledSeqSet.py)

All attributes are dynamically typed; `__init__` sets the common fields
(`_id`/`_version` to `None`, `_links` to `{}`, `_tags` to `[]`), every
subtype field to `None` and `_urls` to `['']`.  The `_exp_length` and
`_seq_model` attributes do not exist on a fresh instance: only the `load`
code paths assign them; they are carried in the record (initially `None`)
because nothing ever reads them before those assignments. -/

structure WgsAssembledSeqSet : Type where
  _id : PyVal
  _version : PyVal
  _links : PyVal
  _tags : PyVal
  _assembler : PyVal
  _assembly_name : PyVal
  _checksums : PyVal
  _comment : PyVal
  _format : PyVal
  _format_doc : PyVal
  _sequence_type : PyVal
  _size : PyVal
  _study : PyVal
  _local_file : PyVal
  _urls : PyVal
  _date : PyVal
  _sop : PyVal
  _exp_length : PyVal
  _seq_model : PyVal

namespace WgsAssembledSeqSet

/-- `WgsAssembledSeqSet.__init__`. -/
def init : WgsAssembledSeqSet :=
  { _id := .pynone, _version := .pynone, _links := .dict [],
    _tags := .list [], _assembler := .pynone, _assembly_name := .pynone,
    _checksums := .pynone, _comment := .pynone, _format := .pynone,
    _format_doc := .pynone, _sequence_type := .pynone, _size := .pynone,
    _study := .pynone, _local_file := .pynone, _urls := .list [.str ""],
    _date := .pynone, _sop := .pynone,
    _exp_length := .pynone, _seq_model := .pynone }

/-- `WgsAssembledSeqSet._get_raw_doc`: the canonical document.  `meta`
always carries `assembler`, `assembly_name`, `checksums`, `comment`,
`format`, `format_doc`, `sequence_type`, `size`, `study`, `urls`, the
`subtype` (which this class fills with the study) and `tags`; `id` and
`ver` appear once assigned; the optional `date` and `sop` meta entries
appear only when set. -/
def _get_raw_doc (w : WgsAssembledSeqSet) : PyVal :=
  let meta : List (PyVal × PyVal) :=
    [ (.str "assembler", w._assembler),
      (.str "assembly_name", w._assembly_name),
      (.str "checksums", w._checksums),
      (.str "comment", w._comment),
      (.str "format", w._format),
      (.str "format_doc", w._format_doc),
      (.str "sequence_type", w._sequence_type),
      (.str "size", w._size),
      (.str "study", w._study),
      (.str "urls", w._urls),
      (.str "subtype", w._study),
      (.str "tags", w._tags) ]
  let meta := meta ++
    (match w._date with
     | .pynone => []
     | v => [(.str "date", v)]) ++
    (match w._sop with
     | .pynone => []
     | v => [(.str "sop", v)])
  let top : List (PyVal × PyVal) :=
    [ (.str "acl", .dict [ (.str "read", .list [.str "all"]),
                           (.str "write", .list [.str "ihmp"]) ]),
      (.str "linkage", w._links),
      (.str "ns", .str "ihmp"),
      (.str "node_type", .str "wgs_assembled_seq_set"),
      (.str "meta", .dict meta) ]
  let top := top ++
    (match w._id with
     | .pynone => []
     | v => [(.str "id", v)]) ++
    (match w._version with
     | .pynone => []
     | v => [(.str "ver", v)])
  .dict top

/-- The document-population body shared by `WgsAssembledSeqSet.load`
(after its `get_node` fetch): builds a template instance and assigns the
private attributes directly from the raw document, in source order —
`id`, `ver`, `linkage`, then from `meta`: `checksums`, `comment`,
`exp_length`, `format`, `format_doc`, `seq_model`, `size`, `urls`,
`tags`, `study`, and the optional `date` and `sop`. -/
def load_doc (seq_set_data : PyVal) : Except PyErr WgsAssembledSeqSet := do
  let d ← enforce_dict seq_set_data
  let idv ← PyVal.getStr d "id"
  let verv ← PyVal.getStr d "ver"
  let linkv ← PyVal.getStr d "linkage"
  let checksums ← SixteenSDnaPrep.metaGet d "checksums"
  let comment ← SixteenSDnaPrep.metaGet d "comment"
  let exp_length ← SixteenSDnaPrep.metaGet d "exp_length"
  let formatv ← SixteenSDnaPrep.metaGet d "format"
  let format_doc ← SixteenSDnaPrep.metaGet d "format_doc"
  let seq_model ← SixteenSDnaPrep.metaGet d "seq_model"
  let sizev ← SixteenSDnaPrep.metaGet d "size"
  let urls ← SixteenSDnaPrep.metaGet d "urls"
  let tags ← SixteenSDnaPrep.metaGet d "tags"
  let study ← SixteenSDnaPrep.metaGet d "study"
  let md ← SixteenSDnaPrep.metaItems d
  let datev ← if PyVal.hasStr md "date" then PyVal.getStr md "date"
    else .ok WgsAssembledSeqSet.init._date
  let sopv ← if PyVal.hasStr md "sop" then PyVal.getStr md "sop"
    else .ok WgsAssembledSeqSet.init._sop
  .ok { init with
        _id := idv, _version := verv, _links := linkv,
        _checksums := checksums, _comment := comment,
        _exp_length := exp_length, _format := formatv,
        _format_doc := format_doc, _seq_model := seq_model,
        _size := sizev, _urls := urls, _tags := tags, _study := study,
        _date := datev, _sop := sopv }

/-- `WgsAssembledSeqSet.load`: fetch the raw document by identifier
through `get_node` (a store failure propagates to the caller), then
populate a template instance from it. -/
def load (osdf : OSDF) (seq_set_id : String) :
    Except PyErr WgsAssembledSeqSet × List StoreCall :=
  match osdf.get_node seq_set_id with
  | .error e => (.error (.exception e), [.getNode seq_set_id])
  | .ok d => (load_doc d, [.getNode seq_set_id])

end WgsAssembledSeqSet

/-! ## Dependency traversal (`Base.children` with cutlass/dependency.py)

`Base.children` is in the provided sources; the `dependency_methods`
registry and `generator_flatten` live in `cutlass/dependency.py`, which
is not among them, and are modelled from the spec (§4.6): the registry
maps a concrete type name to its child-producing operation and a type
with no entry has no children — here each node carries a `registered`
flag saying whether its type has an entry, and the list of children its
resolved child-producing operation would yield, in order;
`generator_flatten` turns the nested generators into one flat sequence in
the same depth-first pre-order. -/

/-- A node of the provenance graph, as the traversal sees it (the graph
reached downward from any node is finite and acyclic, spec §4.6/§9). -/
inductive NTree : Type where
  | mk (registered : Bool) (children : List NTree) : NTree

/-- Does this node's type have an entry in the dependency registry? -/
def NTree.registered : NTree → Bool
  | .mk r _ => r

/-- The children the node's child-producing operation yields, in order. -/
def NTree.childList : NTree → List NTree
  | .mk _ cs => cs

/-- The children the `getattr` dispatch actually reaches: none when the
registry has no entry for the node's type name (the lookup falls back to
`''` and `getattr` to `None`, so the loop is skipped). -/
def NTree.produced (t : NTree) : List NTree :=
  if t.registered then t.childList else []

/-- One item yielded by the inner `_children` generator: a node, or a
nested generator (one level of nesting per depth). -/
inductive Yield : Type where
  | node (t : NTree) : Yield
  | nested (ys : List Yield) : Yield

mutual

/-- The inner `_children(obj)` generator of `Base.children`: yield the
node itself, then — when the registry dispatch resolves — one nested
`_children(child)` generator per child. -/
def childrenSeq : NTree → List Yield
  | .mk r cs => .node (.mk r cs) :: (if r then nestedSeq cs else [])

/-- The `for child in dep_method(): yield _children(child)` loop. -/
def nestedSeq : List NTree → List Yield
  | [] => []
  | t :: ts => .nested (childrenSeq t) :: nestedSeq ts

end

mutual

/-- Modelled from the spec: `generator_flatten` from
`cutlass/dependency.py` — flattening one yielded item. -/
def flattenYield : Yield → List NTree
  | .node t => [t]
  | .nested ys => flattenYields ys

/-- Modelled from the spec: `generator_flatten` — the single flat
sequence of nodes, in the order the nested generators yield them. -/
def flattenYields : List Yield → List NTree
  | [] => []
  | y :: ys => flattenYield y ++ flattenYields ys

end

/-- `Base.children(flatten=False)`: the `_children` sequence with the
root dropped (`islice(_, 1, None)`). -/
def childrenNested (t : NTree) : List Yield :=
  (childrenSeq t).drop 1

/-- `Base.children(flatten=True)`: the same sequence passed through
`generator_flatten`. -/
def childrenFlat (t : NTree) : List NTree :=
  flattenYields ((childrenSeq t).drop 1)

mutual

/-- The depth-first pre-order sequence rooted at a node, following only
registry-resolved children (the reference order for the traversal
claims; defined by direct structural recursion, independently of the
generator embedding). -/
def preorder : NTree → List NTree
  | .mk r cs => .mk r cs :: (if r then preorderList cs else [])

/-- Concatenated pre-order sequences of a list of roots. -/
def preorderList : List NTree → List NTree
  | [] => []
  | t :: ts => preorder t ++ preorderList ts

end

/-! ## Concrete stores and nodes for the evaluations and witnesses -/

/-- A store on which every operation succeeds: the validator accepts,
an insert returns a fresh identifier, and queries return no results. -/
def storeOk : OSDF :=
  { validate_node := fun _ => (true, ""),
    insert_node := fun _ => .ok "newid9876",
    edit_node := fun _ => .ok (),
    get_node := fun _ => .error "no such node",
    delete_node := fun _ => .ok (),
    oql_query := fun _ _ => { result_count := 0, results := [] } }

/-- A store whose validator accepts but whose mutating operations all
fail with a transport error. -/
def storeFail : OSDF :=
  { validate_node := fun _ => (true, ""),
    insert_node := fun _ => .error "could not reach the server",
    edit_node := fun _ => .error "could not reach the server",
    get_node := fun _ => .error "could not reach the server",
    delete_node := fun _ => .error "could not reach the server",
    oql_query := fun _ _ => { result_count := 0, results := [] } }

/-- A trivially accepting MIMARKS check, for the instantiations. -/
def cmAny : List (PyVal × PyVal) → Bool := fun _ => true

/-- A validly populated, already-saved 16S DNA prep: identifier and
version assigned, the mandatory `prepared_from` link present, every
required field set to a well-typed value. -/
def examplePrep : SixteenSDnaPrep :=
  { _id := .str "610a4911a5ca67de12cdc1e4b4011876",
    _version := .int 3,
    _links := [(.str "prepared_from", .list [.str "sample01"])],
    _tags := [.str "test"],
    _comment := .str "a test prep",
    _frag_size := .int 100,
    _lib_layout := .str "fragment",
    _lib_selection := .str "random",
    _mimarks := .dict [],
    _ncbi_taxon_id := .str "408170",
    _prep_id := .str "prep01",
    _sequencing_center := .str "center",
    _sequencing_contact := .str "contact",
    _srs_id := .str "SRS012345",
    _storage_duration := .int 5 }

/-- The same prep before its first save: no identifier, no version. -/
def examplePrepUnsaved : SixteenSDnaPrep :=
  { examplePrep with _id := .pynone, _version := .pynone }

/-- A validly populated, already-saved WGS assembled sequence set:
identifier and version assigned, the mandatory `computed_from` link
present, every required field set to a well-typed value. -/
def exampleWgs : WgsAssembledSeqSet :=
  { _id := .str "9bb18fe313e7fe94bf243da07e0032e4",
    _version := .int 1,
    _links := .dict [(.str "computed_from", .list [.str "prep01"])],
    _tags := .list [.str "wgs"],
    _assembler := .str "SPAdes 3.9.0",
    _assembly_name := .str "assembly 1",
    _checksums := .dict [(.str "md5", .str "d8e8fca2dc0f896fd7cb4cb0031ba249")],
    _comment := .str "a test assembly",
    _format := .str "fasta",
    _format_doc := .str "http://example.org/fasta",
    _sequence_type := .str "nucleotide",
    _size := .int 1000,
    _study := .str "ibd",
    _local_file := .str "/tmp/seqs.fna",
    _urls := .list [.str "fasp://aspera.ihmpdcc.org/ibd/f.fna"],
    _date := .pynone, _sop := .pynone,
    _exp_length := .pynone, _seq_model := .pynone }

/-- A store holding exactly the saved document of `exampleWgs` under its
identifier. -/
def storeWgs : OSDF :=
  { storeOk with
    get_node := fun i =>
      if i = "9bb18fe313e7fe94bf243da07e0032e4" then
        .ok exampleWgs._get_raw_doc
      else .error "no such node" }

/-! ## Helper lemmas -/

mutual

/-- Flattening the `_children` generator of a node gives its depth-first
pre-order sequence. -/
theorem flattenYields_childrenSeq : (t : NTree) →
    flattenYields (childrenSeq t) = preorder t
  | .mk r cs => by
      cases r <;>
        simp [childrenSeq, flattenYields, flattenYield, preorder,
              flattenYields_nestedSeq cs]

/-- Flattening the per-child nested generators concatenates the
children's depth-first pre-order sequences. -/
theorem flattenYields_nestedSeq : (ts : List NTree) →
    flattenYields (nestedSeq ts) = preorderList ts
  | [] => by simp [nestedSeq, flattenYields, preorderList]
  | t :: ts => by
      simp [nestedSeq, flattenYields, flattenYield, preorderList,
            flattenYields_childrenSeq t, flattenYields_nestedSeq ts]

end

/-- The search result-accumulation loop succeeds with `objs` exactly when
it relates the raw documents to `objs` pointwise (same length, same
order, each document converted by the loader). -/
theorem loadAll_ok_iff (cm : List (PyVal × PyVal) → Bool)
    (docs : List PyVal) (objs : List SixteenSDnaPrep) :
    SixteenSDnaPrep.loadAll cm docs = .ok objs ↔
      List.Forall₂
        (fun doc obj => SixteenSDnaPrep.load_sixteenSDnaPrep cm doc = .ok obj)
        docs objs := by
  induction docs generalizing objs with
  | nil =>
      simp only [SixteenSDnaPrep.loadAll, List.forall₂_nil_left_iff]
      constructor
      · intro h
        cases h
        rfl
      · intro h
        cases h
        rfl
  | cons d ds ih =>
      cases hload : SixteenSDnaPrep.load_sixteenSDnaPrep cm d with
      | error e =>
          simp only [SixteenSDnaPrep.loadAll, hload, Except.bind]
          constructor
          · intro h
            cases h
          · intro h
            rcases List.forall₂_cons_left_iff.mp h with ⟨b, u, hb, _, _⟩
            rw [hload] at hb
            cases hb
      | ok obj =>
          cases hrest : SixteenSDnaPrep.loadAll cm ds with
          | error e =>
              simp only [SixteenSDnaPrep.loadAll, hload, hrest, Except.bind]
              constructor
              · intro h
                cases h
              · intro h
                rcases List.forall₂_cons_left_iff.mp h with ⟨b, u, hb, hu, rfl⟩
                rw [hload] at hb
                cases hb
                exact absurd ((ih u).mpr hu) (by simp [hrest])
          | ok objs₀ =>
              simp only [SixteenSDnaPrep.loadAll, hload, hrest, Except.bind]
              constructor
              · intro h
                cases h
                exact List.Forall₂.cons hload ((ih objs₀).mp hrest)
              · intro h
                rcases List.forall₂_cons_left_iff.mp h with ⟨b, u, hb, hu, rfl⟩
                rw [hload] at hb
                cases hb
                have := (ih u).mpr hu
                rw [hrest] at this
                cases this
                rfl

/-! ## Claim theorems -/

/-- C9: for every tag list and tag, `add_tag` appends the tag at the end
of the list when absent, and raises `ValueError` when already present,
leaving the tag list unchanged in the error case. -/
theorem add_tag_spec (n : BaseNode) (tag : PyVal) :
    (n._tags.contains tag = false →
       BaseNode.add_tag n tag = (none, { n with _tags := n._tags ++ [tag] })) ∧
    (n._tags.contains tag = true →
       BaseNode.add_tag n tag =
         (some (.valueError "Tag already present for this subject"), n)) := by
  constructor <;> intro h <;> simp [BaseNode.add_tag, h]

/-- C9 witness: adding a fresh tag to a one-tag list appends it; adding
the tag again raises and leaves the list unchanged. -/
theorem add_tag_spec_witness :
    (BaseNode.add_tag { BaseNode.init with _tags := [.str "a"] } (.str "b") =
       (none, { BaseNode.init with _tags := [.str "a", .str "b"] })) ∧
    (BaseNode.add_tag { BaseNode.init with _tags := [.str "a", .str "b"] }
        (.str "b") =
       (some (.valueError "Tag already present for this subject"),
        { BaseNode.init with _tags := [.str "a", .str "b"] })) :=
  ⟨(add_tag_spec { BaseNode.init with _tags := [.str "a"] } (.str "b")).1 rfl,
   (add_tag_spec { BaseNode.init with _tags := [.str "a", .str "b"] }
      (.str "b")).2 rfl⟩

/-- C10 counterexample: for the node whose identifier is the empty
string, compared to itself, both identifiers are non-`None` and equal and
yet `__eq__` returns `False` (the code tests Python truthiness, not
`is not None`), so the claimed equivalence fails at this input. -/
theorem node_eq_counterexample :
    ¬ (BaseNode.eq { BaseNode.init with _id := some "" }
         { BaseNode.init with _id := some "" } = true ↔
       (({ BaseNode.init with _id := some "" } : BaseNode)._id ≠ none ∧
        ({ BaseNode.init with _id := some "" } : BaseNode)._id =
          ({ BaseNode.init with _id := some "" } : BaseNode)._id)) := by
  simp [BaseNode.eq, BaseNode.idTruthy, BaseNode.init]

/-- C10 (amended): two nodes compare equal exactly when both identifiers
are truthy (non-`None` and non-empty) and equal; a node whose identifier
is `None` is unequal to every node (in both argument orders, itself
included) and its hash raises `TypeError`. -/
theorem node_eq_hash_spec (a b : BaseNode) :
    (BaseNode.eq a b = true ↔
       (a.idTruthy = true ∧ b.idTruthy = true ∧ a._id = b._id)) ∧
    (a._id = none →
       BaseNode.eq a b = false ∧ BaseNode.eq b a = false ∧
       a.hashId = .error (.typeError "Unhashable; must have ID")) := by
  constructor
  · unfold BaseNode.eq
    cases ha : a.idTruthy <;> cases hb : b.idTruthy <;> simp [ha, hb]
  · intro h
    have ht : a.idTruthy = false := by simp [BaseNode.idTruthy, h]
    refine ⟨by simp [BaseNode.eq, ht], by simp [BaseNode.eq, ht],
            by simp [BaseNode.hashId, h]⟩

/-- C10 witness: a fresh node (identifier `None`) is unequal to a saved
node and to itself, and hashing it raises. -/
theorem node_eq_hash_spec_witness :
    BaseNode.eq BaseNode.init { BaseNode.init with _id := some "x" } = false ∧
    BaseNode.eq { BaseNode.init with _id := some "x" } BaseNode.init = false ∧
    BaseNode.init.hashId = .error (.typeError "Unhashable; must have ID") :=
  (node_eq_hash_spec BaseNode.init { BaseNode.init with _id := some "x" }).2 rfl

/-- C8 counterexample: a mapping whose value is a list containing a
non-string element is accepted by the `links` setter (the code checks
only that each value is a list, not a list of strings), refuting the
claimed `ValueError`. -/
theorem links_setter_counterexample :
    BaseNode.links_setter (.dict [(.str "a", .list [.int 1])]) BaseNode.init =
      .ok { BaseNode.init with _links := [(.str "a", .list [.int 1])] } := rfl

/-- C8 (amended): the `links` setter raises `TypeError` for every
non-mapping argument and `ValueError` for every mapping in which some key
is not a string or some value is not a list; the elements inside a value
list are not checked.  On success the stored links equal the argument's
items. -/
theorem links_setter_spec (v : PyVal) (n : BaseNode) :
    ((∀ entries, v ≠ .dict entries) →
       BaseNode.links_setter v n =
         .error (.typeError "argument must be a dict")) ∧
    (∀ entries, v = .dict entries →
       ((∀ kv ∈ entries, kv.1.isStr = true ∧ kv.2.isList = true) →
          BaseNode.links_setter v n = .ok { n with _links := entries }) ∧
       ((∃ kv ∈ entries, kv.1.isStr = false ∨ kv.2.isList = false) →
          BaseNode.links_setter v n =
            .error (.valueError "Links must be a dict of strings to lists."))) := by
  constructor
  · intro h
    cases v <;>
      first
        | rfl
        | exact absurd rfl (h _)
  · rintro entries rfl
    constructor
    · intro h
      have hall : entries.all (fun kv => kv.1.isStr && kv.2.isList) = true := by
        rw [List.all_eq_true]
        intro kv hkv
        rcases h kv hkv with ⟨h1, h2⟩
        simp [h1, h2]
      simp [BaseNode.links_setter, links_check, enforce_dict, Bind.bind,
            Except.bind, hall]
    · intro h
      have hall : entries.all (fun kv => kv.1.isStr && kv.2.isList) = false := by
        rw [List.all_eq_false]
        rcases h with ⟨kv, hkv, hbad⟩
        refine ⟨kv, hkv, ?_⟩
        cases hbad with
        | inl h1 => simp [h1]
        | inr h2 => simp [h2]
      simp [BaseNode.links_setter, links_check, enforce_dict, Bind.bind,
            Except.bind, hall]

/-- C8 witness: a list argument raises `TypeError`; a mapping with an
integer value raises `ValueError`; a well-typed mapping is stored. -/
theorem links_setter_spec_witness :
    BaseNode.links_setter (.list []) BaseNode.init =
      .error (.typeError "argument must be a dict") ∧
    BaseNode.links_setter (.dict [(.str "a", .int 1)]) BaseNode.init =
      .error (.valueError "Links must be a dict of strings to lists.") ∧
    BaseNode.links_setter (.dict [(.str "a", .list [.str "b"])]) BaseNode.init =
      .ok { BaseNode.init with
            _links := [(.str "a", .list [.str "b"])] } :=
  ⟨(links_setter_spec (.list []) BaseNode.init).1 (by intro e h; cases h),
   ((links_setter_spec (.dict [(.str "a", .int 1)]) BaseNode.init).2 _ rfl).2
     ⟨(.str "a", .int 1), by simp, by simp [PyVal.isList]⟩,
   ((links_setter_spec (.dict [(.str "a", .list [.str "b"])])
       BaseNode.init).2 _ rfl).1 (by simp [PyVal.isStr, PyVal.isList])⟩

/-- C5: `delete` raises an explicit error and contacts the store not at
all when the identifier is `None`; with an identifier set it performs
exactly one store delete call and returns `True` on success and `False`
on a store error, never raising; in every case the local object state
(identifier and version included) is returned unchanged. -/
theorem delete_spec (osdf : OSDF) (n : BaseNode) :
    (n._id = none →
       BaseNode.delete osdf n =
         (.error (.exception "Node does not have an ID."), [])) ∧
    (∀ i, n._id = some i →
       (osdf.delete_node i = .ok () →
          BaseNode.delete osdf n = (.ok (n, true), [.deleteNode i])) ∧
       (∀ e, osdf.delete_node i = .error e →
          BaseNode.delete osdf n = (.ok (n, false), [.deleteNode i]))) := by
  constructor
  · intro h
    simp [BaseNode.delete, h]
  · intro i hi
    constructor
    · intro hok
      simp [BaseNode.delete, hi, hok]
    · intro e he
      simp [BaseNode.delete, hi, he]

/-- C5 witness: deleting an unsaved node raises without a store call;
deleting a saved node succeeds against a working store and fails (with
`False`, no exception) against a broken one, the state unchanged. -/
theorem delete_spec_witness :
    BaseNode.delete storeOk BaseNode.init =
      (.error (.exception "Node does not have an ID."), []) ∧
    BaseNode.delete storeOk { BaseNode.init with _id := some "abc" } =
      (.ok ({ BaseNode.init with _id := some "abc" }, true),
       [.deleteNode "abc"]) ∧
    BaseNode.delete storeFail { BaseNode.init with _id := some "abc" } =
      (.ok ({ BaseNode.init with _id := some "abc" }, false),
       [.deleteNode "abc"]) :=
  ⟨(delete_spec storeOk BaseNode.init).1 rfl,
   ((delete_spec storeOk { BaseNode.init with _id := some "abc" }).2
      "abc" rfl).1 rfl,
   ((delete_spec storeFail { BaseNode.init with _id := some "abc" }).2
      "abc" rfl).2 "could not reach the server" rfl⟩

/-- C3: for every node missing the mandatory `prepared_from` link,
`validate` returns a non-empty problem list containing the message about
the missing relation (without raising), `is_valid` returns `False`, and
`save` returns `False` having made no insert or edit call to the store. -/
theorem missing_link_blocks_save (osdf : OSDF) (p : SixteenSDnaPrep)
    (h : PyVal.hasStr p._links "prepared_from" = false) :
    (p.validate osdf ≠ [] ∧
     "Must add a 'prepared_from' link to a sample." ∈ p.validate osdf) ∧
    p.is_valid osdf = false ∧
    (p.save osdf).2.1 = false ∧
    (p.save osdf).2.2 = [.validateNode p._get_raw_doc] ∧
    ∀ c ∈ (p.save osdf).2.2,
      (∀ d, c ≠ .insertNode d) ∧ (∀ d, c ≠ .editNode d) := by
  have hmem : "Must add a 'prepared_from' link to a sample." ∈
      p.validate osdf := by
    simp [SixteenSDnaPrep.validate, h]
  have hiv : p.is_valid osdf = false := by
    simp [SixteenSDnaPrep.is_valid, h]
  have hsave : p.save osdf =
      (p, false, [.validateNode p._get_raw_doc]) := by
    simp [SixteenSDnaPrep.save, hiv]
  refine ⟨⟨List.ne_nil_of_mem hmem, hmem⟩, hiv, ?_, ?_, ?_⟩
  · rw [hsave]
  · rw [hsave]
  · rw [hsave]
    intro c hc
    rcases List.mem_singleton.mp hc with rfl
    exact ⟨fun d hd => StoreCall.noConfusion hd,
           fun d hd => StoreCall.noConfusion hd⟩

/-- C3 witness: the example prep with its links emptied is rejected by
`is_valid`, carries the missing-link message, and `save` aborts with only
the validation call in its trace. -/
theorem missing_link_blocks_save_witness :
    "Must add a 'prepared_from' link to a sample." ∈
      SixteenSDnaPrep.validate storeOk { examplePrep with _links := [] } ∧
    SixteenSDnaPrep.is_valid storeOk { examplePrep with _links := [] } =
      false ∧
    (SixteenSDnaPrep.save storeOk { examplePrep with _links := [] }).2.1 =
      false :=
  ⟨(missing_link_blocks_save storeOk { examplePrep with _links := [] }
      rfl).1.2,
   (missing_link_blocks_save storeOk { examplePrep with _links := [] }
      rfl).2.1,
   (missing_link_blocks_save storeOk { examplePrep with _links := [] }
      rfl).2.2.1⟩

/-- C4: for every unsaved node (identifier `None`) that passes the
validity gate, a store error during the insert leaves `save` returning
`False` (no exception escapes — `save` is a total function into a
boolean) with the node state returned unchanged: identifier still `None`
and version untouched. -/
theorem insert_failure_unchanged (osdf : OSDF) (p : SixteenSDnaPrep)
    (e : String) (hid : p._id = .pynone)
    (hvalid : p.is_valid osdf = true)
    (hins : osdf.insert_node p._get_raw_doc = .error e) :
    p.save osdf =
      (p, false,
       [.validateNode p._get_raw_doc, .insertNode p._get_raw_doc]) ∧
    (p.save osdf).1._id = .pynone ∧
    (p.save osdf).1._version = p._version := by
  have hsave : p.save osdf =
      (p, false,
       [.validateNode p._get_raw_doc, .insertNode p._get_raw_doc]) := by
    simp [SixteenSDnaPrep.save, hvalid, hid, hins]
  exact ⟨hsave, by rw [hsave]; exact hid, by rw [hsave]⟩

/-- C4 witness: the unsaved example prep against the failing store:
`save` returns `False` and the returned state still has no identifier
and no version. -/
theorem insert_failure_unchanged_witness :
    examplePrepUnsaved.save storeFail =
      (examplePrepUnsaved, false,
       [.validateNode examplePrepUnsaved._get_raw_doc,
        .insertNode examplePrepUnsaved._get_raw_doc]) ∧
    (examplePrepUnsaved.save storeFail).1._version = .pynone :=
  ⟨(insert_failure_unchanged storeFail examplePrepUnsaved
      "could not reach the server" rfl rfl rfl).1,
   (insert_failure_unchanged storeFail examplePrepUnsaved
      "could not reach the server" rfl rfl rfl).2.2⟩

/-- C2: evaluation at the failing input.  The saved example prep (local
version 3) updated against a store whose edit succeeds: `save` reports
success, yet the returned state is the argument unchanged — in
particular the local version is still 3, neither overwritten from the
store nor increased, although the method's own docstring says the
version is updated on save. -/
theorem update_version_unchanged_bug :
    (examplePrep.save storeOk).2.1 = true ∧
    (examplePrep.save storeOk).1 = examplePrep ∧
    (examplePrep.save storeOk).1._version = .int 3 :=
  ⟨rfl, rfl, rfl⟩

/-- C1: evaluation at the failing input.  Loading back the exact raw
document `_get_raw_doc` produced for a validly populated, saved
`WgsAssembledSeqSet` raises `KeyError` on `exp_length` — a meta field the
serializer never writes (and the loader also never reads back
`assembler`, `assembly_name` or `sequence_type`) — both on the
document-population body and through `load` against a store holding the
saved document. -/
theorem wgs_load_not_inverse :
    WgsAssembledSeqSet.load_doc exampleWgs._get_raw_doc =
      .error (.keyError (.str "exp_length")) ∧
    (WgsAssembledSeqSet.load storeWgs "9bb18fe313e7fe94bf243da07e0032e4").1 =
      .error (.keyError (.str "exp_length")) :=
  ⟨rfl, rfl⟩

/-- C6: `children` yields the node's descendants in depth-first
pre-order with the root itself dropped (the node's own pre-order
sequence is the node followed by `children(flatten=True)`); the
non-flattened sequence is order-equivalent (flattening it gives exactly
the flat sequence); and a node whose type has no entry in the dependency
registry yields an empty sequence in both modes. -/
theorem children_depth_first (t : NTree) :
    preorder t = t :: childrenFlat t ∧
    flattenYields (childrenNested t) = childrenFlat t ∧
    (t.registered = false → childrenNested t = [] ∧ childrenFlat t = []) := by
  cases t with
  | mk r cs =>
      refine ⟨?_, rfl, ?_⟩
      · cases r <;>
          simp [preorder, childrenFlat, childrenSeq, flattenYields,
                flattenYields_nestedSeq cs]
      · intro h
        have hr : r = false := h
        subst hr
        simp [childrenNested, childrenFlat, childrenSeq, flattenYields]

/-- C6 witness: an unregistered node yields nothing, and the node with
child C1, itself with child C2, yields exactly those two descendants in
order when flattened. -/
theorem children_depth_first_witness :
    childrenNested (NTree.mk false [NTree.mk true []]) = [] ∧
    childrenFlat (NTree.mk false [NTree.mk true []]) = [] ∧
    childrenFlat (NTree.mk true [NTree.mk true [NTree.mk true []]]) =
      [NTree.mk true [NTree.mk true []], NTree.mk true []] :=
  ⟨((children_depth_first (NTree.mk false [NTree.mk true []])).2.2 rfl).1,
   ((children_depth_first (NTree.mk false [NTree.mk true []])).2.2 rfl).2,
   rfl⟩

/-- C7: `search` submits the caller's query parenthesised and conjoined
with the fixed node-type clause (submitting it untouched exactly when it
already is that clause), maps each raw result document through the
`load`-equivalent constructor preserving order and length, and returns
the empty list — never an error, and never a null — when the store
reports no matches. -/
theorem search_scoped_and_mapped (cm : List (PyVal × PyVal) → Bool)
    (osdf : OSDF) (query : String) (subq : String)
    (hq : subq = if query = "\"16s_dna_prep\"[node_type]" then query
        else "(" ++ query ++ ") && \"16s_dna_prep\"[node_type]") :
    (SixteenSDnaPrep.search cm osdf query).2 = [.oqlQuery "ihmp" subq] ∧
    (∀ objs, (SixteenSDnaPrep.search cm osdf query).1 = .ok objs ↔
       List.Forall₂
         (fun doc obj =>
            SixteenSDnaPrep.load_sixteenSDnaPrep cm doc = .ok obj)
         (osdf.oql_query "ihmp" subq).results objs) ∧
    ((osdf.oql_query "ihmp" subq).results = [] →
       (SixteenSDnaPrep.search cm osdf query).1 = .ok []) := by
  subst hq
  by_cases h : query = "\"16s_dna_prep\"[node_type]"
  · rw [if_pos h]
    have hs : SixteenSDnaPrep.search cm osdf query =
        (SixteenSDnaPrep.loadAll cm
           (osdf.oql_query "ihmp" query).results,
         [.oqlQuery "ihmp" query]) := by
      simp [SixteenSDnaPrep.search, h]
    rw [hs]
    exact ⟨rfl, fun objs => loadAll_ok_iff cm _ objs,
           fun hres => by simp [hres, SixteenSDnaPrep.loadAll]⟩
  · rw [if_neg h]
    have hs : SixteenSDnaPrep.search cm osdf query =
        (SixteenSDnaPrep.loadAll cm
           (osdf.oql_query "ihmp"
              ("(" ++ query ++ ") && \"16s_dna_prep\"[node_type]")).results,
         [.oqlQuery "ihmp"
            ("(" ++ query ++ ") && \"16s_dna_prep\"[node_type]")]) := by
      simp [SixteenSDnaPrep.search, h]
    rw [hs]
    exact ⟨rfl, fun objs => loadAll_ok_iff cm _ objs,
           fun hres => by simp [hres, SixteenSDnaPrep.loadAll]⟩

/-- C7 witness: a caller query distinct from the node-type clause is
wrapped and conjoined with it, and an empty result set comes back as the
empty list. -/
theorem search_scoped_and_mapped_witness :
    (SixteenSDnaPrep.search cmAny storeOk "\"xyz\"[tag]").1 = .ok [] ∧
    (SixteenSDnaPrep.search cmAny storeOk "\"xyz\"[tag]").2 =
      [.oqlQuery "ihmp"
         "(\"xyz\"[tag]) && \"16s_dna_prep\"[node_type]"] :=
  ⟨(search_scoped_and_mapped cmAny storeOk "\"xyz\"[tag]"
      "(\"xyz\"[tag]) && \"16s_dna_prep\"[node_type]" (by rfl)).2.2 rfl,
   (search_scoped_and_mapped cmAny storeOk "\"xyz\"[tag]"
      "(\"xyz\"[tag]) && \"16s_dna_prep\"[node_type]" (by rfl)).1⟩

end Cutlass
